import Mathlib

/-!
# Verification of the mDNSResponder IPC client core

A shallow embedding, in Lean, of the wire codec, frame assembler and
reader/writer logic of the `libmdnsresponder` Rust crate, together with
theorems checking the crate's natural-language specification against it.

Modelling conventions:
* Rust `u8`/`u16`/`u32`/`u64` values are `Nat`s; where the source relies on
  fixed-width behaviour the relevant bounds appear as explicit hypotheses.
* Byte buffers (`&[u8]`, `Vec<u8>`) are `List Nat`; Rust `String`s are
  `List Char`; `String::len` (a UTF-8 byte count) is modelled by `utf8Len`.
* Fallible Rust functions returning `Result<T, E>` become `Except`-valued
  functions.  Functions that can *panic* (out-of-bounds slicing) return
  `Option (Except ..)`, with `none` marking the panic.
* The asynchronous reader task is modelled by its pure per-read step: the
  rolling buffer, the `parse_frame` drain loop, and the list of events the
  iteration publishes.
-/

namespace MdnsIpc

/-! ## Big-endian integer views (`u16/u32/u64::from_be_bytes`, `to_be_bytes`) -/

def be16 (b0 b1 : Nat) : Nat := b0 * 256 + b1

def be32 (b0 b1 b2 b3 : Nat) : Nat :=
  ((b0 * 256 + b1) * 256 + b2) * 256 + b3

def be64 (b0 b1 b2 b3 b4 b5 b6 b7 : Nat) : Nat :=
  ((((((b0 * 256 + b1) * 256 + b2) * 256 + b3) * 256 + b4) * 256 + b5) * 256
      + b6) * 256 + b7

def toBe16 (v : Nat) : List Nat := [v / 256 % 256, v % 256]

def toBe32 (v : Nat) : List Nat :=
  [v / 16777216 % 256, v / 65536 % 256, v / 256 % 256, v % 256]

def toBe64 (v : Nat) : List Nat :=
  [v / 72057594037927936 % 256, v / 281474976710656 % 256,
   v / 1099511627776 % 256, v / 4294967296 % 256,
   v / 16777216 % 256, v / 65536 % 256, v / 256 % 256, v % 256]

/-- Model of `u32::from_be_bytes(buf[i..i+4])` on a `List Nat` buffer. -/
def read32 (buf : List Nat) (i : Nat) : Nat :=
  be32 (buf.getD i 0) (buf.getD (i + 1) 0) (buf.getD (i + 2) 0)
    (buf.getD (i + 3) 0)

/-- Model of `u64::from_be_bytes(buf[i..i+8])` on a `List Nat` buffer. -/
def read64 (buf : List Nat) (i : Nat) : Nat :=
  be64 (buf.getD i 0) (buf.getD (i + 1) 0) (buf.getD (i + 2) 0)
    (buf.getD (i + 3) 0) (buf.getD (i + 4) 0) (buf.getD (i + 5) 0)
    (buf.getD (i + 6) 0) (buf.getD (i + 7) 0)

/-! ## `src/ipc/header/request.rs` -/

inductive RequestOperation where
  | None | Connection | RegisterRecord | RemoveRecord | Enumeration
  | RegisterService | Browse | Resolve | Query | ReconfirmRecord
  | AddRecord | UpdateRecord | SetDomain | GetProperty | PortMapping
  | AddressInfo | SendBpfObsolete | GetPid | Release | ConnectionDelegate
  | Cancel
  deriving DecidableEq, Repr

namespace RequestOperation

def from_u32 (value : Nat) : Option RequestOperation :=
  match value with
  | 0 => some .None
  | 1 => some .Connection
  | 2 => some .RegisterRecord
  | 3 => some .RemoveRecord
  | 4 => some .Enumeration
  | 5 => some .RegisterService
  | 6 => some .Browse
  | 7 => some .Resolve
  | 8 => some .Query
  | 9 => some .ReconfirmRecord
  | 10 => some .AddRecord
  | 11 => some .UpdateRecord
  | 12 => some .SetDomain
  | 13 => some .GetProperty
  | 14 => some .PortMapping
  | 15 => some .AddressInfo
  | 16 => some .SendBpfObsolete
  | 17 => some .GetPid
  | 18 => some .Release
  | 19 => some .ConnectionDelegate
  | 63 => some .Cancel
  | _ => none

def to_u32 : RequestOperation → Nat
  | .None => 0
  | .Connection => 1
  | .RegisterRecord => 2
  | .RemoveRecord => 3
  | .Enumeration => 4
  | .RegisterService => 5
  | .Browse => 6
  | .Resolve => 7
  | .Query => 8
  | .ReconfirmRecord => 9
  | .AddRecord => 10
  | .UpdateRecord => 11
  | .SetDomain => 12
  | .GetProperty => 13
  | .PortMapping => 14
  | .AddressInfo => 15
  | .SendBpfObsolete => 16
  | .GetPid => 17
  | .Release => 18
  | .ConnectionDelegate => 19
  | .Cancel => 63

end RequestOperation

/-! ## `src/ipc/header/reply.rs` -/

def REPLY_OPERATION_START : Nat := 64

inductive ReplyOperation where
  | Enumeration | RegisterService | Browse | Resolve | Query
  | RegisterRecord | GetProperty | PortMapping | AddressInfo | AsyncError
  deriving DecidableEq, Repr

namespace ReplyOperation

def from_u32 (value : Nat) : Option ReplyOperation :=
  match value with
  | 64 => some .Enumeration
  | 65 => some .RegisterService
  | 66 => some .Browse
  | 67 => some .Resolve
  | 68 => some .Query
  | 69 => some .RegisterRecord
  | 70 => some .GetProperty
  | 71 => some .PortMapping
  | 72 => some .AddressInfo
  | 73 => some .AsyncError

  | _ => none

def to_u32 : ReplyOperation → Nat
  | .Enumeration => 64
  | .RegisterService => 65
  | .Browse => 66
  | .Resolve => 67
  | .Query => 68
  | .RegisterRecord => 69
  | .GetProperty => 70
  | .PortMapping => 71
  | .AddressInfo => 72
  | .AsyncError => 73

end ReplyOperation

/-! ## `src/ipc/header/mod.rs` -/

inductive Operation where
  | Request (op : RequestOperation)
  | Reply (op : ReplyOperation)
  deriving DecidableEq, Repr

def IPC_HEADER_SIZE : Nat := 28

structure IpcMessageHeader where
  version : Nat
  data_length : Nat
  ipc_flags : Nat
  operation : Operation
  client_context : Nat
  reg_index : Nat
  deriving DecidableEq, Repr

namespace IpcMessageHeader

/-- Model of `IpcMessageHeader::from` (the `io::Error` payloads are kept as their
message strings). -/
def fromBuf (buf : List Nat) : Except String IpcMessageHeader :=
  if buf.length < IPC_HEADER_SIZE then
    .error "Buffer too short for IPC message header"
  else
    let version := read32 buf 0
    let data_length := read32 buf 4
    let ipc_flags := read32 buf 8
    let operation_num := read32 buf 12
    let client_context := read64 buf 16
    let reg_index := read32 buf 24
    if operation_num ≥ REPLY_OPERATION_START then
      match ReplyOperation.from_u32 operation_num with
      | none => .error "Invalid reply operation"
      | some reply_operation =>
          .ok ⟨version, data_length, ipc_flags, .Reply reply_operation,
            client_context, reg_index⟩
    else
      match RequestOperation.from_u32 operation_num with
      | none => .error "Invalid request operation"
      | some request_operation =>
          .ok ⟨version, data_length, ipc_flags, .Request request_operation,
            client_context, reg_index⟩

def to_bytes (h : IpcMessageHeader) : List Nat :=
  toBe32 h.version ++ toBe32 h.data_length ++ toBe32 h.ipc_flags ++
    toBe32 (match h.operation with
      | .Request op => op.to_u32
      | .Reply op => op.to_u32) ++
    toBe64 h.client_context ++ toBe32 h.reg_index

end IpcMessageHeader

/-! ## `String::from_utf8_lossy` / `str::as_bytes`

`utf8Lossy` is Rust's lossy UTF-8 decoding of a byte slice: well-formed
sequences decode to their scalar value, and each maximal invalid subpart is
replaced by one U+FFFD (invalid starter: 1 byte; a valid prefix of a longer
sequence that is cut short or followed by a non-continuation byte: the length
of that prefix). -/

/-- U+FFFD, the Unicode replacement character. -/
def replChar : Char := Char.ofNat 0xFFFD

/-- Is `b` a UTF-8 continuation byte (0x80..=0xBF)? -/
def isCont (b : Nat) : Bool := 0x80 ≤ b ∧ b ≤ 0xBF

/-- Valid second bytes of a 3-byte sequence headed by `b0`. -/
def validSecond3 (b0 b1 : Nat) : Bool :=
  if b0 = 0xE0 then 0xA0 ≤ b1 ∧ b1 ≤ 0xBF
  else if b0 = 0xED then 0x80 ≤ b1 ∧ b1 ≤ 0x9F
  else isCont b1

/-- Valid second bytes of a 4-byte sequence headed by `b0`. -/
def validSecond4 (b0 b1 : Nat) : Bool :=
  if b0 = 0xF0 then 0x90 ≤ b1 ∧ b1 ≤ 0xBF
  else if b0 = 0xF4 then 0x80 ≤ b1 ∧ b1 ≤ 0x8F
  else isCont b1

def utf8Lossy : List Nat → List Char
  | [] => []
  | b0 :: rest =>
    if b0 < 0x80 then Char.ofNat b0 :: utf8Lossy rest
    else if 0xC2 ≤ b0 ∧ b0 ≤ 0xDF then
      match rest with
      | [] => [replChar]
      | b1 :: rest1 =>
        if isCont b1 then
          Char.ofNat ((b0 - 0xC0) * 64 + (b1 - 0x80)) :: utf8Lossy rest1
        else replChar :: utf8Lossy (b1 :: rest1)
    else if 0xE0 ≤ b0 ∧ b0 ≤ 0xEF then
      match rest with
      | [] => [replChar]
      | b1 :: rest1 =>
        if validSecond3 b0 b1 then
          match rest1 with
          | [] => [replChar]
          | b2 :: rest2 =>
            if isCont b2 then
              Char.ofNat ((b0 - 0xE0) * 4096 + (b1 - 0x80) * 64 + (b2 - 0x80))
                :: utf8Lossy rest2
            else replChar :: utf8Lossy (b2 :: rest2)
        else replChar :: utf8Lossy (b1 :: rest1)
    else if 0xF0 ≤ b0 ∧ b0 ≤ 0xF4 then
      match rest with
      | [] => [replChar]
      | b1 :: rest1 =>
        if validSecond4 b0 b1 then
          match rest1 with
          | [] => [replChar]
          | b2 :: rest2 =>
            if isCont b2 then
              match rest2 with
              | [] => [replChar]
              | b3 :: rest3 =>
                if isCont b3 then
                  Char.ofNat ((b0 - 0xF0) * 262144 + (b1 - 0x80) * 4096 +
                      (b2 - 0x80) * 64 + (b3 - 0x80)) :: utf8Lossy rest3
                else replChar :: utf8Lossy (b3 :: rest3)
            else replChar :: utf8Lossy (b2 :: rest2)
        else replChar :: utf8Lossy (b1 :: rest1)
    else replChar :: utf8Lossy rest

/-- The UTF-8 size in bytes of one scalar value (`Char::len_utf8`). -/
def charUtf8Size (c : Char) : Nat :=
  if c.toNat < 0x80 then 1
  else if c.toNat < 0x800 then 2
  else if c.toNat < 0x10000 then 3
  else 4

/-- Model of `String::len` of a Rust string: its UTF-8 byte count. -/
def utf8Len (s : List Char) : Nat := (s.map charUtf8Size).sum

/-- UTF-8 encoding of one scalar value. -/
def charUtf8 (c : Char) : List Nat :=
  let n := c.toNat
  if n < 0x80 then [n]
  else if n < 0x800 then [0xC0 + n / 64, 0x80 + n % 64]
  else if n < 0x10000 then
    [0xE0 + n / 4096, 0x80 + n / 64 % 64, 0x80 + n % 64]
  else [0xF0 + n / 262144, 0x80 + n / 4096 % 64, 0x80 + n / 64 % 64,
    0x80 + n % 64]

/-- Model of `str::as_bytes` of a Rust string. -/
def strUtf8 (s : List Char) : List Nat := s.flatMap charUtf8

/-- The shared `cstr_from_buf` helper of the reply decoders: scan for the
first zero byte (or the end of the buffer) and lossily decode up to it. -/
def cstr_from_buf (buf : List Nat) : List Char :=
  utf8Lossy (buf.takeWhile (fun b => b ≠ 0))

/-! ## `src/ipc/operation/mod.rs` (shared reply header, used by
resolve and addrinfo replies) -/

namespace OperationMod

inductive ReplyFlags where
  | more_coming
  | add
  | threshold_reached
  deriving DecidableEq, Repr

/-- Bit values of `ReplyFlags` (`more_coming = 0x1`, `add = 0x2`,
`threshold_reached = 0x2000000`). -/
def ReplyFlags.val : ReplyFlags → Nat
  | .more_coming => 0x1
  | .add => 0x2
  | .threshold_reached => 0x2000000

structure ReplyHeader where
  flags : List ReplyFlags
  interface_index : Nat
  error : Nat
  deriving DecidableEq, Repr

/-- Model of `ReplyFlags::from_u32`: collect the known bits in declaration order; an
empty result is an error. -/
def ReplyFlags.from_u32 (value : Nat) : Except String (List ReplyFlags) :=
  let flags : List ReplyFlags := []
  let flags := if value &&& ReplyFlags.more_coming.val ≠ 0 then
    flags ++ [ReplyFlags.more_coming] else flags
  let flags := if value &&& ReplyFlags.add.val ≠ 0 then
    flags ++ [ReplyFlags.add] else flags
  let flags := if value &&& ReplyFlags.threshold_reached.val ≠ 0 then
    flags ++ [ReplyFlags.threshold_reached] else flags
  if flags.isEmpty then
    .error ("Unknown ReplyFlags value: " ++ toString value)
  else
    .ok flags

/-- Model of `ReplyHeader::from_bytes` over the leading 12 bytes of a reply body. -/
def ReplyHeader.from_bytes (buf : List Nat) : Except String ReplyHeader :=
  if buf.length < 12 then
    .error ("Buffer too short for ReplyHeader: " ++ toString buf.length)
  else
    match ReplyFlags.from_u32
        (be32 (buf.getD 0 0) (buf.getD 1 0) (buf.getD 2 0) (buf.getD 3 0)) with
    | .error e => .error e
    | .ok flags =>
        .ok ⟨flags, be32 (buf.getD 4 0) (buf.getD 5 0) (buf.getD 6 0)
          (buf.getD 7 0),
          be32 (buf.getD 8 0) (buf.getD 9 0) (buf.getD 10 0) (buf.getD 11 0)⟩

end OperationMod

/-! ## `src/ipc/operation/browse.rs` -/

namespace Browse

inductive ServiceFlags where
  | none | auto_trigger | add | default | force_multicast | include_p2p
  | include_awdl
  deriving DecidableEq, Repr

def ServiceFlags.val : ServiceFlags → Nat
  | .none => 0x0
  | .auto_trigger => 0x1
  | .add => 0x2
  | .default => 0x3
  | .force_multicast => 0x400
  | .include_p2p => 0x20000
  | .include_awdl => 0x100000

structure Request where
  service_flags : ServiceFlags
  interface_index : Nat
  reg_type : List Char
  domain : List Char

/-- Model of `browse::Request::to_bytes`. -/
def Request.to_bytes (r : Request) : List Nat :=
  toBe32 r.service_flags.val ++ toBe32 r.interface_index ++
    strUtf8 r.reg_type ++ [0] ++ strUtf8 r.domain ++ [0]

/-- Model of `browse.rs` has its own copy of the reply-flag decoder, textually
identical to `operation/mod.rs`'s; browse replies use this copy. -/
inductive ReplyFlags where
  | more_coming
  | add
  | threshold_reached
  deriving DecidableEq, Repr

def ReplyFlags.val : ReplyFlags → Nat
  | .more_coming => 0x1
  | .add => 0x2
  | .threshold_reached => 0x2000000

structure ReplyHeader where
  flags : List ReplyFlags
  interface_index : Nat
  error : Nat
  deriving DecidableEq, Repr

def ReplyFlags.from_u32 (value : Nat) : Except String (List ReplyFlags) :=
  let flags : List ReplyFlags := []
  let flags := if value &&& ReplyFlags.more_coming.val ≠ 0 then
    flags ++ [ReplyFlags.more_coming] else flags
  let flags := if value &&& ReplyFlags.add.val ≠ 0 then
    flags ++ [ReplyFlags.add] else flags
  let flags := if value &&& ReplyFlags.threshold_reached.val ≠ 0 then
    flags ++ [ReplyFlags.threshold_reached] else flags
  if flags.isEmpty then
    .error ("Unknown ReplyFlags value: " ++ toString value)
  else
    .ok flags

def ReplyHeader.from_bytes (buf : List Nat) : Except String ReplyHeader :=
  if buf.length < 12 then
    .error ("Buffer too short for ReplyHeader: " ++ toString buf.length)
  else
    match ReplyFlags.from_u32
        (be32 (buf.getD 0 0) (buf.getD 1 0) (buf.getD 2 0) (buf.getD 3 0)) with
    | .error e => .error e
    | .ok flags =>
        .ok ⟨flags, be32 (buf.getD 4 0) (buf.getD 5 0) (buf.getD 6 0)
          (buf.getD 7 0),
          be32 (buf.getD 8 0) (buf.getD 9 0) (buf.getD 10 0) (buf.getD 11 0)⟩

structure Reply where
  header : ReplyHeader
  service_name : List Char
  service_type : List Char
  service_domain : List Char
  deriving DecidableEq, Repr

/-- Model of `browse::Reply::from_bytes`.  The source advances `pos` past each
NUL-terminated string with no bounds check and then slices `&buf[pos..]`;
when `pos` exceeds the buffer length that slice panics, modelled as `none`. -/
def Reply.from_bytes (buf : List Nat) : Option (Except String Reply) :=
  match ReplyHeader.from_bytes buf with
  | .error e => some (.error e)
  | .ok header =>
    let pos := 12
    if pos > buf.length then none else
    let service_name := cstr_from_buf (buf.drop pos)
    let pos := pos + utf8Len service_name + 1
    if pos > buf.length then none else
    let service_type := cstr_from_buf (buf.drop pos)
    let pos := pos + utf8Len service_type + 1
    if pos > buf.length then none else
    let service_domain := cstr_from_buf (buf.drop pos)
    some (.ok ⟨header, service_name, service_type, service_domain⟩)

/-- Model of `browse::Reply::is_add`. -/
def Reply.is_add (r : Reply) : Bool := r.header.flags.contains ReplyFlags.add

end Browse

/-! ## `src/ipc/operation/resolve.rs` -/

namespace Resolve

/-- The crate's lookup table for escaping bytes 0..=31 (a concatenation of
`\NNN` renderings, 4 characters per byte). -/
def ESCAPED_BYTE_SMALL : String :=
  "\\000\\001\\002\\003\\004\\005\\006\\007\\008\\009\\010\\011" ++
  "\\012\\013\\014\\015\\016\\017\\018\\019\\020\\021\\022\\023" ++
  "\\024\\025\\026\\027\\028\\029\\030\\031"

/-- The crate's lookup table for escaping bytes 127..=255. -/
def ESCAPED_BYTE_LARGE : String :=
  "\\127\\128\\129\\130\\131\\132\\133\\134\\135\\136\\137\\138" ++
  "\\139\\140\\141\\142\\143\\144\\145\\146\\147\\148\\149\\150" ++
  "\\151\\152\\153\\154\\155\\156\\157\\158\\159\\160\\161\\162" ++
  "\\163\\164\\165\\166\\167\\168\\169\\170\\171\\172\\173\\174" ++
  "\\175\\176\\177\\178\\179\\180\\181\\182\\183\\184\\185\\186" ++
  "\\187\\188\\189\\190\\191\\192\\193\\194\\195\\196\\197\\198" ++
  "\\199\\200\\201\\202\\203\\204\\205\\206\\207\\208\\209\\210" ++
  "\\211\\212\\213\\214\\215\\216\\217\\218\\219\\220\\221\\222" ++
  "\\223\\224\\225\\226\\227\\228\\229\\230\\231\\232\\233\\234" ++
  "\\235\\236\\237\\238\\239\\240\\241\\242\\243\\244\\245\\246" ++
  "\\247\\248\\249\\250\\251\\252\\253\\254\\255"

inductive ServiceFlags where
  | none | auto_trigger | add | default | force_multicast | include_p2p
  | include_awdl
  deriving DecidableEq, Repr

def ServiceFlags.val : ServiceFlags → Nat
  | .none => 0x0
  | .auto_trigger => 0x1
  | .add => 0x2
  | .default => 0x3
  | .force_multicast => 0x400
  | .include_p2p => 0x20000
  | .include_awdl => 0x100000

structure Request where
  service_flags : ServiceFlags
  interface_index : Nat
  name : List Char
  reg_type : List Char
  domain : List Char

/-- Model of `resolve::Request::to_bytes`. -/
def Request.to_bytes (r : Request) : List Nat :=
  toBe32 r.service_flags.val ++ toBe32 r.interface_index ++
    strUtf8 r.name ++ [0] ++ strUtf8 r.reg_type ++ [0] ++
    strUtf8 r.domain ++ [0]

structure Reply where
  full_name : List Char
  host_target : List Char
  port : Nat
  txt_data : List (List Char)
  deriving DecidableEq, Repr

/-- Model of `escape_byte`: slice 4 characters out of the relevant lookup table
(`b < 0x20` uses the small table at `b*4`; otherwise the large table at
`(b-127)*4`, matching the source's `b - (b'~' + 1)`). -/
def escape_byte (b : Nat) : List Char :=
  if b < 32 then (ESCAPED_BYTE_SMALL.toList.drop (b * 4)).take 4
  else (ESCAPED_BYTE_LARGE.toList.drop ((b - 127) * 4)).take 4

/-- The byte-scanning loop of `unpack_string`: `slice` is the full item,
the remaining bytes sit at index `i`, `s` is the rendered output so far and
`consumed` is the index one past the last escaped byte (0 while nothing has
been escaped).  Pending unescaped runs `slice[consumed..i]` are flushed
through `String::from_utf8_lossy` when an escape is emitted. -/
def unpackStringGo (slice : List Nat) :
    List Nat → Nat → List Char → Nat → (List Char × Nat)
  | [], _, s, consumed => (s, consumed)
  | b :: rest, i, s, consumed =>
    if b = 34 ∨ b = 92 then
      unpackStringGo slice rest (i + 1)
        (s ++ utf8Lossy ((slice.drop consumed).take (i - consumed)) ++
          ['\\', Char.ofNat b]) (i + 1)
    else if b < 32 ∨ b > 126 then
      unpackStringGo slice rest (i + 1)
        (s ++ utf8Lossy ((slice.drop consumed).take (i - consumed)) ++
          escape_byte b) (i + 1)
    else
      unpackStringGo slice rest (i + 1) s consumed

/-- Model of `unpack_string`: read one length byte, then that many data bytes,
rendering them printably. -/
def unpack_string (msg : List Nat) (off : Nat) :
    Except String (List Char × Nat) :=
  if off + 1 > msg.length then .error "overflow unpacking txt (len byte)" else
  let l := msg.getD off 0
  let off1 := off + 1
  if off1 + l > msg.length then .error "overflow unpacking txt (data)" else
  let slice := (msg.drop off1).take l
  match unpackStringGo slice slice 0 [] 0 with
  | (s, consumed) =>
    if consumed = 0 then .ok (utf8Lossy slice, off1 + l)
    else .ok (s ++ utf8Lossy (slice.drop consumed), off1 + l)

/-- The `while offset < msg.len()` loop of `unpack_txt`.  The fuel only
bounds the iteration count; since every successful `unpack_string` advances
`offset` by at least one, `msg.length + 1` units never run out. -/
def unpackTxtGo (msg : List Nat) :
    Nat → Nat → List (List Char) → Except String (List (List Char) × Nat)
  | 0, offset, txts => .ok (txts, offset)
  | fuel + 1, offset, txts =>
    if offset < msg.length then
      match unpack_string msg offset with
      | .ok (txt, newOffset) => unpackTxtGo msg fuel newOffset (txts ++ [txt])
      | .error e => if txts.isEmpty then .error e else .ok (txts, offset)
    else .ok (txts, offset)

/-- Model of `unpack_txt`: unpack items until the buffer is exhausted; an item
failure after at least one success returns the accumulated items, a failure
before any success returns the error. -/
def unpack_txt (msg : List Nat) (offset : Nat) :
    Except String (List (List Char) × Nat) :=
  unpackTxtGo msg (msg.length + 1) offset []

/-- Model of `resolve::Reply::from_bytes`.  All of its slice accesses are guarded by
explicit length checks, so — unlike the browse and addrinfo decoders — no
path panics, and the `Option` layer is constantly `some`. -/
def Reply.from_bytes (buf : List Nat) : Option (Except String Reply) :=
  match OperationMod.ReplyHeader.from_bytes buf with
  | .error e => some (.error e)
  | .ok _header =>
    let offset := 12
    if offset ≥ buf.length then
      some (.error "Buffer too short to contain full name") else
    let full_name := cstr_from_buf (buf.drop offset)
    let offset := offset + utf8Len full_name + 1
    if offset ≥ buf.length then
      some (.error "Buffer too short to contain host target") else
    let host_target := cstr_from_buf (buf.drop offset)
    let offset := offset + utf8Len host_target + 1
    if offset + 2 ≥ buf.length then
      some (.error "Buffer too short for port") else
    let port := be16 (buf.getD offset 0) (buf.getD (offset + 1) 0)
    let offset := offset + 2
    if offset + 2 > buf.length then
      some (.error "Buffer too short for txtLen") else
    let txt_len := be16 (buf.getD offset 0) (buf.getD (offset + 1) 0)
    let offset := offset + 2
    if offset + txt_len > buf.length then
      some (.error "Buffer too short for txtRData") else
    match unpack_txt ((buf.drop offset).take txt_len) 0 with
    | .error e => some (.error e)
    | .ok (txt_data, _) => some (.ok ⟨full_name, host_target, port, txt_data⟩)

end Resolve

/-! ## `src/ipc/operation/addrinfo.rs` -/

namespace AddrInfo

inductive ServiceFlags where
  | None | AutoTrigger | Add | Default | ForceMulticast | IncludeP2p
  | IncludeAwdl
  deriving DecidableEq, Repr

def ServiceFlags.val : ServiceFlags → Nat
  | .None => 0x0
  | .AutoTrigger => 0x1
  | .Add => 0x2
  | .Default => 0x3
  | .ForceMulticast => 0x400
  | .IncludeP2p => 0x20000
  | .IncludeAwdl => 0x100000

inductive Protocol where
  | IPv4 | IPv6 | Both
  deriving DecidableEq, Repr

def Protocol.val : Protocol → Nat
  | .IPv4 => 0x1
  | .IPv6 => 0x2
  | .Both => 0x3

structure Request where
  service_flags : ServiceFlags
  interface_index : Nat
  protocol : Protocol
  hostname : List Char

/-- Model of `addrinfo::Request::to_bytes`. -/
def Request.to_bytes (r : Request) : List Nat :=
  toBe32 r.service_flags.val ++ toBe32 r.interface_index ++
    toBe32 r.protocol.val ++ strUtf8 r.hostname ++ [0]

structure Reply where
  header : OperationMod.ReplyHeader
  name : List Char
  rrtype : Nat
  rrclass : Nat
  rdlen : Nat
  rdata : List Nat
  ttl : Nat
  deriving DecidableEq, Repr

/-- Model of `addrinfo::Reply::from_bytes`.  The source's first action is the slice
`&buf[0..12]`, which panics whenever fewer than 12 bytes are present
(modelled as `none`); every later access is guarded by a length check. -/
def Reply.from_bytes (buf : List Nat) : Option (Except String Reply) :=
  if buf.length < 12 then none else
  match OperationMod.ReplyHeader.from_bytes (buf.take 12) with
  | .error e => some (.error e)
  | .ok header =>
    let offset := 12
    let name := cstr_from_buf (buf.drop offset)
    let offset := offset + utf8Len name + 1
    if buf.length < offset + 6 then
      some (.error ("Buffer too short for RR fields: " ++
        toString buf.length)) else
    let rrtype := be16 (buf.getD offset 0) (buf.getD (offset + 1) 0)
    let rrclass := be16 (buf.getD (offset + 2) 0) (buf.getD (offset + 3) 0)
    let rdlen := be16 (buf.getD (offset + 4) 0) (buf.getD (offset + 5) 0)
    let offset := offset + 6
    if buf.length < offset + rdlen + 4 then
      some (.error ("Buffer too short for RDATA and TTL: " ++
        toString buf.length)) else
    let rdata := (buf.drop offset).take rdlen
    let offset := offset + rdlen
    let ttl := be32 (buf.getD offset 0) (buf.getD (offset + 1) 0)
      (buf.getD (offset + 2) 0) (buf.getD (offset + 3) 0)
    some (.ok ⟨header, name, rrtype, rrclass, rdlen, rdata, ttl⟩)

end AddrInfo

/-! ## `src/lib.rs` event entities -/

inductive IpAddr where
  | v4 (a b c d : Nat)
  | v6 (octets : List Nat)
  deriving DecidableEq, Repr

structure Service where
  name : List Char
  service_type : List Char
  domain : List Char
  deriving DecidableEq, Repr

structure Resolved where
  full_name : List Char
  host_target : List Char
  port : Nat
  txt_data : List (List Char)
  deriving DecidableEq, Repr

structure AddressInfo where
  hostname : List Char
  address : IpAddr
  deriving DecidableEq, Repr

inductive MDnsResponderEvent where
  | ServiceAdded (s : Service)
  | ServiceRemoved (s : Service)
  | ServiceResolved (r : Resolved)
  | AddressInfoResolved (a : AddressInfo)
  deriving DecidableEq, Repr

inductive MDnsResponderError where
  | ChannelCreationFailed
  | IpcConnectionCreationFailed
  | IpcWriteFailed
  deriving DecidableEq, Repr

/-! ## `src/ipc/mod.rs`: the reader task's frame parsing

`parse_frame` and its per-operation helpers are modelled as pure functions
from the tail of the rolling buffer to an outcome plus the events the call
publishes on the channel.  `none` again marks a panic (reachable through
`browse::Reply::from_bytes`). -/

inductive ParseOutcome where
  | ok (n : Nat)
  | incomplete
  | failed
  deriving DecidableEq, Repr

/-- Model of `Ipc::parse_browse_reply`. -/
def parse_browse_reply (buf : List Nat) (data_length : Nat) :
    Option (ParseOutcome × List MDnsResponderEvent) :=
  let start_pos := IPC_HEADER_SIZE
  let stop_pos := start_pos + data_length
  if stop_pos > buf.length then some (.incomplete, [])
  else
    match Browse.Reply.from_bytes ((buf.drop start_pos).take data_length) with
    | none => none
    | some (.error _) => some (.failed, [])
    | some (.ok reply) =>
      let service : Service :=
        ⟨reply.service_name, reply.service_type, reply.service_domain⟩
      let ev := if reply.is_add then MDnsResponderEvent.ServiceAdded service
        else MDnsResponderEvent.ServiceRemoved service
      some (.ok (IPC_HEADER_SIZE + data_length), [ev])

/-- Model of `Ipc::parse_resolve_reply`. -/
def parse_resolve_reply (buf : List Nat) (data_length : Nat) :
    Option (ParseOutcome × List MDnsResponderEvent) :=
  let start_pos := IPC_HEADER_SIZE
  let stop_pos := start_pos + data_length
  if stop_pos > buf.length then some (.incomplete, [])
  else
    match Resolve.Reply.from_bytes ((buf.drop start_pos).take data_length) with
    | none => none
    | some (.error _) => some (.failed, [])
    | some (.ok reply) =>
      let resolved : Resolved :=
        ⟨reply.full_name, reply.host_target, reply.port, reply.txt_data⟩
      some (.ok (IPC_HEADER_SIZE + data_length),
        [MDnsResponderEvent.ServiceResolved resolved])

/-- Model of `Ipc::parse_address_info_reply`, including the `rdata`-length dispatch
into `IpAddr`. -/
def parse_address_info_reply (buf : List Nat) (data_length : Nat) :
    Option (ParseOutcome × List MDnsResponderEvent) :=
  let start_pos := IPC_HEADER_SIZE
  let stop_pos := start_pos + data_length
  if stop_pos > buf.length then some (.incomplete, [])
  else
    match AddrInfo.Reply.from_bytes ((buf.drop start_pos).take data_length) with
    | none => none
    | some (.error _) => some (.failed, [])
    | some (.ok reply) =>
      if reply.rdata.length = 4 then
        some (.ok (IPC_HEADER_SIZE + data_length),
          [MDnsResponderEvent.AddressInfoResolved ⟨reply.name,
            .v4 (reply.rdata.getD 0 0) (reply.rdata.getD 1 0)
              (reply.rdata.getD 2 0) (reply.rdata.getD 3 0)⟩])
      else if reply.rdata.length = 16 then
        some (.ok (IPC_HEADER_SIZE + data_length),
          [MDnsResponderEvent.AddressInfoResolved
            ⟨reply.name, .v6 (reply.rdata.take 16)⟩])
      else some (.failed, [])

/-- Model of `Ipc::parse_frame`: decode the header, dispatch the three interpreted
reply operations, and treat everything else as a parse failure. -/
def parse_frame (buf : List Nat) :
    Option (ParseOutcome × List MDnsResponderEvent) :=
  match IpcMessageHeader.fromBuf buf with
  | .error _ => some (.failed, [])
  | .ok header =>
    match header.operation with
    | .Reply .Browse => parse_browse_reply buf header.data_length
    | .Reply .Resolve => parse_resolve_reply buf header.data_length
    | .Reply .AddressInfo => parse_address_info_reply buf header.data_length
    | .Reply _ => some (.failed, [])
    | .Request _ => some (.failed, [])

/-- The `while pos < buffer.len()` drain loop of `Ipc::listener`'s
`Ok(n)` read arm.  `Ok(frame_size)` advances `pos`; `IncompleteFrame`
breaks and the processed prefix is drained; any other error clears the
whole buffer.  Returns the published events and the buffer left for the
next read.  Fuel only bounds iterations: every `ok n` has
`n = 28 + data_length > 0`, so `buffer.length + 1` units never run out. -/
def drainLoop :
    Nat → List Nat → Nat → List MDnsResponderEvent →
    Option (List MDnsResponderEvent × List Nat)
  | 0, _, _, _ => none
  | fuel + 1, buffer, pos, events =>
    if pos < buffer.length then
      match parse_frame (buffer.drop pos) with
      | none => none
      | some (.ok n, evs) => drainLoop fuel buffer (pos + n) (events ++ evs)
      | some (.incomplete, _) => some (events, buffer.drop pos)
      | some (.failed, _) => some (events, [])
    else some (events, buffer.drop pos)

/-- One `Ok(n)` iteration of the listener: append the bytes just read to
the rolling buffer, then drain. -/
def listenerStep (buffer chunk : List Nat) :
    Option (List MDnsResponderEvent × List Nat) :=
  let buffer := buffer ++ chunk
  drainLoop (buffer.length + 1) buffer 0 []

/-- Feed a sequence of reads through the listener, collecting every
published event and the final rolling buffer. -/
def feedChunks (chunks : List (List Nat)) :
    Option (List MDnsResponderEvent × List Nat) :=
  chunks.foldlM
    (fun st chunk => do
      let (evs, buffer) ← listenerStep st.2 chunk
      pure (st.1 ++ evs, buffer))
    (([], []) : List MDnsResponderEvent × List Nat)

/-! ## `src/ipc/mod.rs`: the writer surface

A write call's interaction with the socket is reduced to one disposition:
the kernel accepts up to `n` bytes of a `try_write`, or the write fails.
Each writer is a function of its inputs, the freshly drawn context
(`rand::random::<u64>()`, a parameter here) and that disposition, returning
the Rust result together with the bytes actually transmitted. -/

/-- Model of `IpcFlags::NoErrSd`, set on every outgoing request. -/
def IpcFlags.no_err_sd : Nat := 0x4

inductive WriteDisposition where
  | accepts (n : Nat)
  | fails
  deriving DecidableEq, Repr

/-- Model of `OwnedWriteHalf::try_write`: transmit a prefix of the buffer — all of
it only if the kernel accepts enough — and return its length, or error. -/
def try_write (buf : List Nat) : WriteDisposition → Except Unit Nat × List Nat
  | .accepts n => (.ok (min n buf.length), buf.take (min n buf.length))
  | .fails => (.error (), [])

/-- Model of `Ipc::write`: await writability, then a single `try_write` covering the
whole buffer.  The returned count is passed through unchecked; there is no
loop continuing after a short write. -/
def Ipc.write (buf : List Nat) (d : WriteDisposition) :
    Except Unit Nat × List Nat :=
  try_write buf d

/-- Model of `Ipc::write_browse_request` (body, header with `version=1`,
`ipc_flags=NoErrSd`, `reg_index=0`, then one `Ipc::write` of
header ++ body; returns the context on success). -/
def write_browse_request (service_type service_domain : List Char)
    (context : Nat) (d : WriteDisposition) : Except Unit Nat × List Nat :=
  let request : Browse.Request := ⟨.none, 0, service_type, service_domain⟩
  let request_buf := request.to_bytes
  let header : IpcMessageHeader :=
    ⟨1, request_buf.length, IpcFlags.no_err_sd, .Request .Browse, context, 0⟩
  let buf := header.to_bytes ++ request_buf
  match Ipc.write buf d with
  | (.ok _, sent) => (.ok header.client_context, sent)
  | (.error _, sent) => (.error (), sent)

/-- Model of `Ipc::write_cancel_request`: header only, `data_length=0`, the caller's
context echoed in `client_context`. -/
def write_cancel_request (context : Nat) (d : WriteDisposition) :
    Except Unit Unit × List Nat :=
  let header : IpcMessageHeader :=
    ⟨1, 0, IpcFlags.no_err_sd, .Request .Cancel, context, 0⟩
  match Ipc.write header.to_bytes d with
  | (.ok _, sent) => (.ok (), sent)
  | (.error _, sent) => (.error (), sent)

/-- Model of `Ipc::write_resolve_request`. -/
def write_resolve_request (service_name reg_type service_domain : List Char)
    (context : Nat) (d : WriteDisposition) : Except Unit Nat × List Nat :=
  let request : Resolve.Request :=
    ⟨.none, 0, service_name, reg_type, service_domain⟩
  let request_buf := request.to_bytes
  let header : IpcMessageHeader :=
    ⟨1, request_buf.length, IpcFlags.no_err_sd, .Request .Resolve, context, 0⟩
  let buf := header.to_bytes ++ request_buf
  match Ipc.write buf d with
  | (.ok _, sent) => (.ok header.client_context, sent)
  | (.error _, sent) => (.error (), sent)

/-- Model of `Ipc::write_addrinfo_request`. -/
def write_addrinfo_request (protocol : AddrInfo.Protocol)
    (hostname : List Char) (context : Nat) (d : WriteDisposition) :
    Except Unit Nat × List Nat :=
  let request : AddrInfo.Request := ⟨.None, 0, protocol, hostname⟩
  let request_buf := request.to_bytes
  let header : IpcMessageHeader :=
    ⟨1, request_buf.length, IpcFlags.no_err_sd, .Request .AddressInfo,
      context, 0⟩
  let buf := header.to_bytes ++ request_buf
  match Ipc.write buf d with
  | (.ok _, sent) => (.ok header.client_context, sent)
  | (.error _, sent) => (.error (), sent)

/-- Model of `MDnsResponder::browse` (`src/lib.rs`): forward to the writer and map
any error onto `IpcWriteFailed`. -/
def MDnsResponder.browse (service_type service_domain : List Char)
    (context : Nat) (d : WriteDisposition) :
    Except MDnsResponderError Nat × List Nat :=
  match write_browse_request service_type service_domain context d with
  | (.ok ctx, sent) => (.ok ctx, sent)
  | (.error _, sent) => (.error .IpcWriteFailed, sent)

/-! ## Concrete wire vectors for the scenario theorems -/

/-- 28-byte header of a browse reply frame: `version=1`, `data_length=20`,
`ipc_flags=0`, `operation=66` (Browse reply), `client_context=0x11`,
`reg_index=0`. -/
def browseReplyHeaderBytes : List Nat :=
  [0,0,0,1, 0,0,0,20, 0,0,0,0, 0,0,0,66, 0,0,0,0,0,0,0,17, 0,0,0,0]

/-- Browse reply body with the `Add` flag set (`flags=2`), interface 0,
error 0, then `"_x"\0 "_y"\0 "z"\0`. -/
def browseAddBody : List Nat :=
  [0,0,0,2, 0,0,0,0, 0,0,0,0, 95,120,0, 95,121,0, 122,0]

/-- Same body with `flags=0` — the "service removed" shape of scenario S2. -/
def browseRemoveBody : List Nat :=
  [0,0,0,0, 0,0,0,0, 0,0,0,0, 95,120,0, 95,121,0, 122,0]

/-- Same body as `browseAddBody` except the reply header's `error` field is
5 instead of 0. -/
def browseAddBodyErr5 : List Nat :=
  [0,0,0,2, 0,0,0,0, 0,0,0,5, 95,120,0, 95,121,0, 122,0]

def browseAddFrame : List Nat := browseReplyHeaderBytes ++ browseAddBody

def browseRemoveFrame : List Nat := browseReplyHeaderBytes ++ browseRemoveBody

/-- The event `browseAddFrame` decodes to. -/
def browseAddEvent : MDnsResponderEvent :=
  .ServiceAdded ⟨['_','x'], ['_','y'], ['z']⟩

/-- A complete frame whose header carries the uninterpreted reply operation
`Query=68` and an empty body. -/
def queryReplyFrame : List Nat :=
  [0,0,0,1, 0,0,0,0, 0,0,0,0, 0,0,0,68, 0,0,0,0,0,0,0,17, 0,0,0,0]

/-! ## C1 -/

/-- C1.  The claim (and the spec) say `decode_reply_header` must drop
unknown flag bits and succeed with an empty set when no known bit is set, so
that a browse reply with `flags=0` is emitted as `ServiceRemoved`.  The code
disagrees: both copies of `ReplyFlags::from_u32` return
`Err("Unknown ReplyFlags value: 0")` when the collected set is empty, so a
browse reply frame with `flags=0` fails body parsing, the listener clears
its whole buffer, and no `ServiceRemoved` event is ever produced. -/
theorem c1_flags_zero_fails :
    Browse.ReplyFlags.from_u32 0 = .error "Unknown ReplyFlags value: 0" ∧
    OperationMod.ReplyFlags.from_u32 0 =
      .error "Unknown ReplyFlags value: 0" ∧
    feedChunks [browseRemoveFrame] = some ([], []) :=
  ⟨rfl, rfl, rfl⟩

/-! ## C2 -/

/-- C2.  The claim says event production is independent of chunk
boundaries and that a buffer shorter than 28 bytes yields *NeedMore* with
the bytes retained.  In the code `IpcMessageHeader::from` reports a short
buffer as a plain parse error, which the listener answers by clearing the
whole buffer: a valid browse frame delivered whole produces its one event,
but the same frame split 5 bytes / rest produces no event at all. -/
theorem c2_chunking_changes_events :
    feedChunks [browseAddFrame] = some ([browseAddEvent], []) ∧
    feedChunks [browseAddFrame.take 5, browseAddFrame.drop 5] =
      some ([], []) :=
  ⟨rfl, rfl⟩

/-! ## C3 -/

/-- C3 (counterexample).  The claim says a body-parse error drops
exactly `need = 28 + data_length` bytes, reports `Ok(need)`, and preserves
any following frames.  At the concrete buffer holding a bad-body browse
frame (`flags=0`) directly followed by a valid browse frame, `parse_frame`
instead reports failure and the listener clears everything: the valid
following frame is discarded and produces no event. -/
theorem c3_counterexample :
    parse_frame (browseRemoveFrame ++ browseAddFrame) =
      some (.failed, []) ∧
    feedChunks [browseRemoveFrame ++ browseAddFrame] = some ([], []) :=
  ⟨rfl, rfl⟩

/-! ## C4 -/

/-- C4.  The claim states the three reply-body decoders are total and
never panic, in particular on bodies whose strings run to the end without a
NUL terminator, or bodies shorter than the 12-byte reply header.  The code
panics on both: `browse::Reply::from_bytes` slices `&buf[pos..]` with
`pos = 15 > 14` after reading the unterminated string `"ab"`, and
`addrinfo::Reply::from_bytes` begins with `&buf[0..12]` on an empty body. -/
theorem c4_decoders_panic :
    Browse.Reply.from_bytes
      ([0,0,0,2, 0,0,0,0, 0,0,0,0] ++ [97, 98]) = none ∧
    AddrInfo.Reply.from_bytes [] = none :=
  ⟨rfl, rfl⟩

/-! ## C5 -/

/-- C5 (counterexample).  The claim says a frame carrying a reply
operation other than Browse/Resolve/AddressInfo is skipped while following
buffered frames are still parsed.  At the concrete buffer holding a
`Query=68` reply frame followed by a valid browse frame, `parse_frame`
reports failure, the listener clears the whole buffer, and the valid
following frame yields no event. -/
theorem c5_counterexample :
    parse_frame (queryReplyFrame ++ browseAddFrame) = some (.failed, []) ∧
    feedChunks [queryReplyFrame ++ browseAddFrame] = some ([], []) :=
  ⟨rfl, rfl⟩

/-! ## C6 -/

/-- C6 (counterexample).  The claim says a writer call that returns
success has transmitted every byte (looping on short writes).  With a
kernel that accepts a single byte, `MDnsResponder::browse` for
`("_x", "z")` returns `Ok(context)` although only 1 byte of the 41-byte
frame was transmitted. -/
theorem c6_counterexample :
    MDnsResponder.browse ['_','x'] ['z'] 0 (.accepts 1) = (.ok 0, [0]) ∧
    (IpcMessageHeader.to_bytes
        ⟨1, 13, IpcFlags.no_err_sd, .Request .Browse, 0, 0⟩ ++
      Browse.Request.to_bytes ⟨.none, 0, ['_','x'], ['z']⟩).length = 41 :=
  ⟨rfl, rfl⟩

/-! ## Symbolic evaluation lemmas for the reply decoders -/

theorem browse_hdr_bytes (x0 x1 x2 x3 x4 x5 x6 x7 x8 x9 x10 x11 : Nat)
    (tail : List Nat) :
    Browse.ReplyHeader.from_bytes
        ([x0,x1,x2,x3,x4,x5,x6,x7,x8,x9,x10,x11] ++ tail) =
      match Browse.ReplyFlags.from_u32 (be32 x0 x1 x2 x3) with
      | .error e => .error e
      | .ok fl => .ok ⟨fl, be32 x4 x5 x6 x7, be32 x8 x9 x10 x11⟩ := by
  simp only [Browse.ReplyHeader.from_bytes, List.cons_append, List.nil_append,
    List.length_cons, List.length_append, List.getD_cons_zero,
    List.getD_cons_succ]
  rw [if_neg (by omega)]

theorem repl_hdr_bytes (x0 x1 x2 x3 x4 x5 x6 x7 x8 x9 x10 x11 : Nat)
    (tail : List Nat) :
    OperationMod.ReplyHeader.from_bytes
        ([x0,x1,x2,x3,x4,x5,x6,x7,x8,x9,x10,x11] ++ tail) =
      match OperationMod.ReplyFlags.from_u32 (be32 x0 x1 x2 x3) with
      | .error e => .error e
      | .ok fl => .ok ⟨fl, be32 x4 x5 x6 x7, be32 x8 x9 x10 x11⟩ := by
  simp only [OperationMod.ReplyHeader.from_bytes, List.cons_append,
    List.nil_append, List.length_cons, List.length_append,
    List.getD_cons_zero, List.getD_cons_succ]
  rw [if_neg (by omega)]

theorem parse_browse_reply_append (hdr body : List Nat) (h : hdr.length = 28) :
    parse_browse_reply (hdr ++ body) body.length =
      match Browse.Reply.from_bytes body with
      | none => none
      | some (.error _) => some (.failed, [])
      | some (.ok reply) =>
          some (.ok (28 + body.length),
            [if reply.is_add then
              MDnsResponderEvent.ServiceAdded
                ⟨reply.service_name, reply.service_type, reply.service_domain⟩
             else
              MDnsResponderEvent.ServiceRemoved
                ⟨reply.service_name, reply.service_type,
                  reply.service_domain⟩]) := by
  unfold parse_browse_reply
  simp only [IPC_HEADER_SIZE, List.length_append, h]
  rw [if_neg (by omega)]
  rw [← h, List.drop_left, List.take_length, h]

theorem parse_resolve_reply_append (hdr body : List Nat)
    (h : hdr.length = 28) :
    parse_resolve_reply (hdr ++ body) body.length =
      match Resolve.Reply.from_bytes body with
      | none => none
      | some (.error _) => some (.failed, [])
      | some (.ok reply) =>
          some (.ok (28 + body.length),
            [MDnsResponderEvent.ServiceResolved
              ⟨reply.full_name, reply.host_target, reply.port,
                reply.txt_data⟩]) := by
  unfold parse_resolve_reply
  simp only [IPC_HEADER_SIZE, List.length_append, h]
  rw [if_neg (by omega)]
  rw [← h, List.drop_left, List.take_length, h]

theorem parse_address_info_reply_append (hdr body : List Nat)
    (h : hdr.length = 28) :
    parse_address_info_reply (hdr ++ body) body.length =
      match AddrInfo.Reply.from_bytes body with
      | none => none
      | some (.error _) => some (.failed, [])
      | some (.ok reply) =>
          if reply.rdata.length = 4 then
            some (.ok (28 + body.length),
              [MDnsResponderEvent.AddressInfoResolved ⟨reply.name,
                .v4 (reply.rdata.getD 0 0) (reply.rdata.getD 1 0)
                  (reply.rdata.getD 2 0) (reply.rdata.getD 3 0)⟩])
          else if reply.rdata.length = 16 then
            some (.ok (28 + body.length),
              [MDnsResponderEvent.AddressInfoResolved
                ⟨reply.name, .v6 (reply.rdata.take 16)⟩])
          else some (.failed, []) := by
  unfold parse_address_info_reply
  simp only [IPC_HEADER_SIZE, List.length_append, h]
  rw [if_neg (by omega)]
  rw [← h, List.drop_left, List.take_length, h]

/-! ## Error-field invariance of the three interpreted reply parsers -/

set_option maxRecDepth 4000 in
theorem browse_error_field_irrelevant
    (x0 x1 x2 x3 x4 x5 x6 x7 e8 e9 e10 e11 f8 f9 f10 f11 : Nat)
    (tail : List Nat) :
    parse_browse_reply
      (List.replicate 28 0 ++
        ([x0,x1,x2,x3,x4,x5,x6,x7,e8,e9,e10,e11] ++ tail))
      (12 + tail.length) =
    parse_browse_reply
      (List.replicate 28 0 ++
        ([x0,x1,x2,x3,x4,x5,x6,x7,f8,f9,f10,f11] ++ tail))
      (12 + tail.length) := by
  have hlen : ∀ (z8 z9 z10 z11 : Nat),
      ([x0,x1,x2,x3,x4,x5,x6,x7,z8,z9,z10,z11] ++ tail).length =
        12 + tail.length := by
    intro z8 z9 z10 z11; simp; omega
  conv_lhs => rw [← hlen e8 e9 e10 e11]
  conv_rhs => rw [← hlen f8 f9 f10 f11]
  rw [parse_browse_reply_append _ _ (by simp),
    parse_browse_reply_append _ _ (by simp)]
  rw [hlen, hlen]
  unfold Browse.Reply.from_bytes
  rw [browse_hdr_bytes, browse_hdr_bytes]
  cases hfl : Browse.ReplyFlags.from_u32 (be32 x0 x1 x2 x3) with
  | error e => rfl
  | ok fl =>
    have hd12 : ∀ (z8 z9 z10 z11 : Nat),
        ([x0,x1,x2,x3,x4,x5,x6,x7,z8,z9,z10,z11] ++ tail).drop 12 = tail := by
      intro z8 z9 z10 z11; exact List.drop_left' (by simp)
    have hdk : ∀ (z8 z9 z10 z11 k : Nat),
        ([x0,x1,x2,x3,x4,x5,x6,x7,z8,z9,z10,z11] ++ tail).drop (12 + k) =
          tail.drop k := by
      intro z8 z9 z10 z11 k
      have h12 : (12 : Nat) + k =
          ([x0,x1,x2,x3,x4,x5,x6,x7,z8,z9,z10,z11] : List Nat).length + k := by
        simp
      rw [h12, List.drop_append]
    simp only [gt_iff_lt]
    rw [hd12, hd12]
    rw [hlen, hlen]
    rw [show ∀ u : Nat, 12 + u + 1 = 12 + (u + 1) from fun u => by omega]
    rw [hdk, hdk]
    rw [show ∀ u v : Nat, 12 + (u + 1) + v + 1 = 12 + (u + 1 + (v + 1)) from
      fun u v => by omega]
    rw [hdk, hdk]
    split_ifs <;> rfl

set_option maxRecDepth 4000 in
theorem resolve_error_field_irrelevant
    (x0 x1 x2 x3 x4 x5 x6 x7 e8 e9 e10 e11 f8 f9 f10 f11 : Nat)
    (tail : List Nat) :
    parse_resolve_reply
      (List.replicate 28 0 ++
        ([x0,x1,x2,x3,x4,x5,x6,x7,e8,e9,e10,e11] ++ tail))
      (12 + tail.length) =
    parse_resolve_reply
      (List.replicate 28 0 ++
        ([x0,x1,x2,x3,x4,x5,x6,x7,f8,f9,f10,f11] ++ tail))
      (12 + tail.length) := by
  have hlen : ∀ (z8 z9 z10 z11 : Nat),
      ([x0,x1,x2,x3,x4,x5,x6,x7,z8,z9,z10,z11] ++ tail).length =
        12 + tail.length := by
    intro z8 z9 z10 z11; simp; omega
  conv_lhs => rw [← hlen e8 e9 e10 e11]
  conv_rhs => rw [← hlen f8 f9 f10 f11]
  rw [parse_resolve_reply_append _ _ (by simp),
    parse_resolve_reply_append _ _ (by simp)]
  rw [hlen, hlen]
  unfold Resolve.Reply.from_bytes
  rw [repl_hdr_bytes, repl_hdr_bytes]
  cases hfl : OperationMod.ReplyFlags.from_u32 (be32 x0 x1 x2 x3) with
  | error e => rfl
  | ok fl =>
    have hd12 : ∀ (z8 z9 z10 z11 : Nat),
        ([x0,x1,x2,x3,x4,x5,x6,x7,z8,z9,z10,z11] ++ tail).drop 12 = tail := by
      intro z8 z9 z10 z11; exact List.drop_left' (by simp)
    have hdk : ∀ (z8 z9 z10 z11 k : Nat),
        ([x0,x1,x2,x3,x4,x5,x6,x7,z8,z9,z10,z11] ++ tail).drop (12 + k) =
          tail.drop k := by
      intro z8 z9 z10 z11 k
      have h12 : (12 : Nat) + k =
          ([x0,x1,x2,x3,x4,x5,x6,x7,z8,z9,z10,z11] : List Nat).length + k := by
        simp
      rw [h12, List.drop_append]
    have hgd : ∀ (z8 z9 z10 z11 k : Nat),
        ([x0,x1,x2,x3,x4,x5,x6,x7,z8,z9,z10,z11] ++ tail).getD (12 + k) 0 =
          tail.getD k 0 := by
      intro z8 z9 z10 z11 k
      rw [List.getD_append_right _ _ _ _ (by simp)]
      simp
    simp only [ge_iff_le, gt_iff_lt, Nat.add_assoc]
    simp only [hlen, hd12, hdk, hgd]

set_option maxRecDepth 8000 in
theorem addrinfo_error_field_irrelevant
    (x0 x1 x2 x3 x4 x5 x6 x7 e8 e9 e10 e11 f8 f9 f10 f11 : Nat)
    (tail : List Nat) :
    parse_address_info_reply
      (List.replicate 28 0 ++
        ([x0,x1,x2,x3,x4,x5,x6,x7,e8,e9,e10,e11] ++ tail))
      (12 + tail.length) =
    parse_address_info_reply
      (List.replicate 28 0 ++
        ([x0,x1,x2,x3,x4,x5,x6,x7,f8,f9,f10,f11] ++ tail))
      (12 + tail.length) := by
  have hlen : ∀ (z8 z9 z10 z11 : Nat),
      ([x0,x1,x2,x3,x4,x5,x6,x7,z8,z9,z10,z11] ++ tail).length =
        12 + tail.length := by
    intro z8 z9 z10 z11; simp; omega
  conv_lhs => rw [← hlen e8 e9 e10 e11]
  conv_rhs => rw [← hlen f8 f9 f10 f11]
  rw [parse_address_info_reply_append _ _ (by simp),
    parse_address_info_reply_append _ _ (by simp)]
  rw [hlen, hlen]
  unfold AddrInfo.Reply.from_bytes
  have htk : ∀ (z8 z9 z10 z11 : Nat),
      ([x0,x1,x2,x3,x4,x5,x6,x7,z8,z9,z10,z11] ++ tail).take 12 =
        [x0,x1,x2,x3,x4,x5,x6,x7,z8,z9,z10,z11] ++ ([] : List Nat) := by
    intro z8 z9 z10 z11
    rw [List.append_nil]
    exact List.take_left' (by simp)
  rw [hlen, hlen, htk, htk]
  rw [if_neg (by omega), if_neg (by omega)]
  rw [repl_hdr_bytes, repl_hdr_bytes]
  cases hfl : OperationMod.ReplyFlags.from_u32 (be32 x0 x1 x2 x3) with
  | error e => rfl
  | ok fl =>
    have hd12 : ∀ (z8 z9 z10 z11 : Nat),
        ([x0,x1,x2,x3,x4,x5,x6,x7,z8,z9,z10,z11] ++ tail).drop 12 = tail := by
      intro z8 z9 z10 z11; exact List.drop_left' (by simp)
    have hdk : ∀ (z8 z9 z10 z11 k : Nat),
        ([x0,x1,x2,x3,x4,x5,x6,x7,z8,z9,z10,z11] ++ tail).drop (12 + k) =
          tail.drop k := by
      intro z8 z9 z10 z11 k
      have h12 : (12 : Nat) + k =
          ([x0,x1,x2,x3,x4,x5,x6,x7,z8,z9,z10,z11] : List Nat).length + k := by
        simp
      rw [h12, List.drop_append]
    have hgd : ∀ (z8 z9 z10 z11 k : Nat),
        ([x0,x1,x2,x3,x4,x5,x6,x7,z8,z9,z10,z11] ++ tail).getD (12 + k) 0 =
          tail.getD k 0 := by
      intro z8 z9 z10 z11 k
      rw [List.getD_append_right _ _ _ _ (by simp)]
      simp
    simp only [ge_iff_le, gt_iff_lt, Nat.add_assoc]
    simp only [hlen, hd12, hdk, hgd]
    split_ifs <;> rfl

/-! ## C7 -/

/-- C7 (counterexample).  The claim says the reply header's `error`
field is surfaced to the emitted event.  Two concrete browse reply frames
that are identical except for their `error` field (0 versus 5) decode to the
*same* `parse_frame` output: the emitted event cannot carry the error
value. -/
theorem c7_counterexample :
    Browse.ReplyHeader.from_bytes browseAddBody = .ok ⟨[.add], 0, 0⟩ ∧
    Browse.ReplyHeader.from_bytes browseAddBodyErr5 = .ok ⟨[.add], 0, 5⟩ ∧
    parse_frame (browseReplyHeaderBytes ++ browseAddBody) =
      parse_frame (browseReplyHeaderBytes ++ browseAddBodyErr5) :=
  ⟨rfl, rfl, rfl⟩

/-- C7 (amended).  For every interpreted reply (Browse, Resolve,
AddressInfo), the `error` field of the 12-byte reply header is decoded but
*not* surfaced to the emitted event: replacing the four error bytes of a
reply body by any other four bytes leaves the parser's output — outcome and
published events — unchanged, and the core performs no retry based on it. -/
theorem c7_amended
    (x0 x1 x2 x3 x4 x5 x6 x7 e8 e9 e10 e11 f8 f9 f10 f11 : Nat)
    (tail : List Nat) :
    (parse_browse_reply
        (List.replicate 28 0 ++
          ([x0,x1,x2,x3,x4,x5,x6,x7,e8,e9,e10,e11] ++ tail))
        (12 + tail.length) =
      parse_browse_reply
        (List.replicate 28 0 ++
          ([x0,x1,x2,x3,x4,x5,x6,x7,f8,f9,f10,f11] ++ tail))
        (12 + tail.length)) ∧
    (parse_resolve_reply
        (List.replicate 28 0 ++
          ([x0,x1,x2,x3,x4,x5,x6,x7,e8,e9,e10,e11] ++ tail))
        (12 + tail.length) =
      parse_resolve_reply
        (List.replicate 28 0 ++
          ([x0,x1,x2,x3,x4,x5,x6,x7,f8,f9,f10,f11] ++ tail))
        (12 + tail.length)) ∧
    (parse_address_info_reply
        (List.replicate 28 0 ++
          ([x0,x1,x2,x3,x4,x5,x6,x7,e8,e9,e10,e11] ++ tail))
        (12 + tail.length) =
      parse_address_info_reply
        (List.replicate 28 0 ++
          ([x0,x1,x2,x3,x4,x5,x6,x7,f8,f9,f10,f11] ++ tail))
        (12 + tail.length)) :=
  ⟨browse_error_field_irrelevant x0 x1 x2 x3 x4 x5 x6 x7 e8 e9 e10 e11
      f8 f9 f10 f11 tail,
    resolve_error_field_irrelevant x0 x1 x2 x3 x4 x5 x6 x7 e8 e9 e10 e11
      f8 f9 f10 f11 tail,
    addrinfo_error_field_irrelevant x0 x1 x2 x3 x4 x5 x6 x7 e8 e9 e10 e11
      f8 f9 f10 f11 tail⟩

/-- C3 (amended).  When the frame at the front of the buffer has a
well-formed header for a Browse reply and its complete body fails to parse,
the listener does *not* drop just that frame: `parse_frame` reports a
failure and the drain loop clears the whole rolling buffer, discarding any
following frames, and publishes no event. -/
theorem c3_amended (buf : List Nat) (h : IpcMessageHeader) (e : String)
    (hh : IpcMessageHeader.fromBuf buf = .ok h)
    (hop : h.operation = .Reply .Browse)
    (hlen : 28 + h.data_length ≤ buf.length)
    (hb : Browse.Reply.from_bytes ((buf.drop 28).take h.data_length) =
      some (.error e)) :
    listenerStep [] buf = some ([], []) := by
  have hpf : parse_frame buf = some (.failed, []) := by
    simp only [parse_frame, hh, hop]
    simp only [parse_browse_reply, IPC_HEADER_SIZE]
    rw [if_neg (by omega), hb]
  have hpos : 0 < buf.length := by omega
  unfold listenerStep
  rw [List.nil_append]
  show drainLoop (buf.length + 1) buf 0 [] = some ([], [])
  unfold drainLoop
  rw [if_pos hpos, List.drop_zero, hpf]

/-- Witness for `c3_amended`: the bad-body browse frame (`flags=0`)
followed by a valid browse frame is cleared whole, with no event. -/
theorem c3_amended_witness :
    listenerStep [] (browseRemoveFrame ++ browseAddFrame) = some ([], []) :=
  c3_amended (browseRemoveFrame ++ browseAddFrame)
    ⟨1, 20, 0, .Reply .Browse, 17, 0⟩ "Unknown ReplyFlags value: 0"
    rfl rfl (by decide) rfl

/-- C5 (amended).  A complete frame carrying a reply operation other
than Browse, Resolve or AddressInfo is treated by `parse_frame` as a
frame-parsing failure, so the listener clears the *whole* buffer: no event
is emitted for that frame, and frames already buffered behind it are
discarded rather than parsed. -/
theorem c5_amended (buf : List Nat) (h : IpcMessageHeader)
    (r : ReplyOperation)
    (hh : IpcMessageHeader.fromBuf buf = .ok h)
    (hop : h.operation = .Reply r)
    (hlen : 28 ≤ buf.length)
    (h1 : r ≠ .Browse) (h2 : r ≠ .Resolve) (h3 : r ≠ .AddressInfo) :
    listenerStep [] buf = some ([], []) := by
  have hpf : parse_frame buf = some (.failed, []) := by
    simp only [parse_frame, hh, hop]
  have hpos : 0 < buf.length := by omega
  unfold listenerStep
  rw [List.nil_append]
  show drainLoop (buf.length + 1) buf 0 [] = some ([], [])
  unfold drainLoop
  rw [if_pos hpos, List.drop_zero, hpf]

/-- Witness for `c5_amended`: a `Query=68` reply frame followed by a valid
browse frame is cleared whole, with no event. -/
theorem c5_amended_witness :
    listenerStep [] (queryReplyFrame ++ browseAddFrame) = some ([], []) :=
  c5_amended (queryReplyFrame ++ browseAddFrame)
    ⟨1, 0, 0, .Reply .Query, 17, 0⟩ .Query
    rfl rfl (by decide) (by decide) (by decide) (by decide)

/-- C6 (amended).  The write path awaits writability and makes a
*single* `try_write` attempt covering the whole header+body buffer.  On a
write error the facade propagates `IpcWriteFailed`.  On success the call
returns the context, but only the prefix the kernel accepted
(`min n |buf|` bytes) has been transmitted — the returned count is not
checked and no continuation drains the rest of the buffer. -/
theorem c6_amended (service_type service_domain : List Char) (ctx n : Nat) :
    write_browse_request service_type service_domain ctx .fails =
      (.error (), []) ∧
    MDnsResponder.browse service_type service_domain ctx .fails =
      (.error .IpcWriteFailed, []) ∧
    write_browse_request service_type service_domain ctx (.accepts n) =
      (.ok ctx,
        (IpcMessageHeader.to_bytes ⟨1,
            (Browse.Request.to_bytes
              ⟨.none, 0, service_type, service_domain⟩).length,
            IpcFlags.no_err_sd, .Request .Browse, ctx, 0⟩ ++
          Browse.Request.to_bytes
            ⟨.none, 0, service_type, service_domain⟩).take
          (min n
            (IpcMessageHeader.to_bytes ⟨1,
                (Browse.Request.to_bytes
                  ⟨.none, 0, service_type, service_domain⟩).length,
                IpcFlags.no_err_sd, .Request .Browse, ctx, 0⟩ ++
              Browse.Request.to_bytes
                ⟨.none, 0, service_type, service_domain⟩).length)) :=
  ⟨rfl, rfl, rfl⟩

/-! ## Operation-table lemmas -/

theorem RequestOperation.request_from_to (op : RequestOperation) :
    RequestOperation.from_u32 op.to_u32 = some op := by cases op <;> rfl

theorem ReplyOperation.reply_from_to (op : ReplyOperation) :
    ReplyOperation.from_u32 op.to_u32 = some op := by cases op <;> rfl

theorem RequestOperation.to_u32_lt (op : RequestOperation) :
    op.to_u32 < 64 := by cases op <;> decide

theorem ReplyOperation.to_u32_ge (op : ReplyOperation) :
    64 ≤ op.to_u32 := by cases op <;> decide

theorem be32_digits (v : Nat) (h : v < 4294967296) :
    be32 (v / 16777216 % 256) (v / 65536 % 256) (v / 256 % 256) (v % 256) =
      v := by
  unfold be32; omega

theorem be64_digits (v : Nat) (h : v < 18446744073709551616) :
    be64 (v / 72057594037927936 % 256) (v / 281474976710656 % 256)
      (v / 1099511627776 % 256) (v / 4294967296 % 256)
      (v / 16777216 % 256) (v / 65536 % 256) (v / 256 % 256) (v % 256) =
      v := by
  unfold be64; omega

/-! ## C8 -/

/-- C8.  Header round-trip: `encode_header` always yields exactly 28
bytes, and `decode_header (encode_header h) = h` for every legal header —
arbitrary in-range `version`, `data_length`, `ipc_flags`, `client_context`
and `reg_index`, and any of the 21 recognized request operations (all of
whose codes are < 64) or 10 recognized reply operations (codes ≥ 64). -/
theorem c8_round_trip (version data_length ipc_flags : Nat)
    (operation : Operation) (client_context reg_index : Nat)
    (h1 : version < 4294967296) (h2 : data_length < 4294967296)
    (h3 : ipc_flags < 4294967296)
    (h4 : client_context < 18446744073709551616)
    (h5 : reg_index < 4294967296) :
    (IpcMessageHeader.to_bytes ⟨version, data_length, ipc_flags, operation,
        client_context, reg_index⟩).length = 28 ∧
    IpcMessageHeader.fromBuf (IpcMessageHeader.to_bytes ⟨version,
        data_length, ipc_flags, operation, client_context, reg_index⟩) =
      .ok ⟨version, data_length, ipc_flags, operation, client_context,
        reg_index⟩ := by
  constructor
  · simp [IpcMessageHeader.to_bytes, toBe32, toBe64]
  · unfold IpcMessageHeader.to_bytes IpcMessageHeader.fromBuf
    simp only [toBe32, toBe64, List.cons_append, List.nil_append,
      List.length_cons, List.length_nil, read32, read64,
      List.getD_cons_zero, List.getD_cons_succ, IPC_HEADER_SIZE,
      REPLY_OPERATION_START]
    rw [if_neg (by omega)]
    rw [be32_digits version h1, be32_digits data_length h2,
      be32_digits ipc_flags h3, be64_digits client_context h4,
      be32_digits reg_index h5]
    cases operation with
    | Request op =>
      rw [be32_digits op.to_u32
        (by have := RequestOperation.to_u32_lt op; omega)]
      rw [if_neg (by have := RequestOperation.to_u32_lt op; omega)]
      rw [RequestOperation.request_from_to]
    | Reply op =>
      rw [be32_digits op.to_u32 (by cases op <;> decide)]
      rw [if_pos (ReplyOperation.to_u32_ge op)]
      rw [ReplyOperation.reply_from_to]

/-- Witness for `c8_round_trip` at a concrete legal header. -/
theorem c8_round_trip_witness :
    (IpcMessageHeader.to_bytes ⟨1, 20, 4, .Reply .Browse, 17, 0⟩).length =
      28 ∧
    IpcMessageHeader.fromBuf
        (IpcMessageHeader.to_bytes ⟨1, 20, 4, .Reply .Browse, 17, 0⟩) =
      .ok ⟨1, 20, 4, .Reply .Browse, 17, 0⟩ :=
  c8_round_trip 1 20 4 (.Reply .Browse) 17 0 (by decide) (by decide)
    (by decide) (by decide) (by decide)

/-! ## C10 -/

/-- C10.  `decode_header` succeeds on *every* buffer of at least 28
bytes whose operation word maps to a known request (code < 64) or reply
(code ≥ 64) operation, whatever the `version`, `data_length`, `ipc_flags`
and `reg_index` words hold; in particular no check requires inbound frames
to carry `version = 1`. -/
theorem c10_decode_ignores_version (buf : List Nat) (hlen : 28 ≤ buf.length)
    (hop : if 64 ≤ read32 buf 12 then
        (ReplyOperation.from_u32 (read32 buf 12)).isSome = true
      else (RequestOperation.from_u32 (read32 buf 12)).isSome = true) :
    ∃ op : Operation, IpcMessageHeader.fromBuf buf =
      .ok ⟨read32 buf 0, read32 buf 4, read32 buf 8, op, read64 buf 16,
        read32 buf 24⟩ := by
  unfold IpcMessageHeader.fromBuf
  rw [if_neg (by simp only [IPC_HEADER_SIZE]; omega)]
  simp only [REPLY_OPERATION_START, ge_iff_le]
  by_cases hge : 64 ≤ read32 buf 12
  · rw [if_pos hge] at hop
    obtain ⟨r, hr⟩ := Option.isSome_iff_exists.mp hop
    rw [if_pos hge, hr]
    exact ⟨.Reply r, rfl⟩
  · rw [if_neg hge] at hop
    obtain ⟨r, hr⟩ := Option.isSome_iff_exists.mp hop
    rw [if_neg hge, hr]
    exact ⟨.Request r, rfl⟩

/-- Witness for `c10_decode_ignores_version`: a 28-byte reply header with
`version = 7` (not 1) and operation 66 still decodes. -/
theorem c10_decode_ignores_version_witness :
    ∃ op : Operation, IpcMessageHeader.fromBuf
        [0,0,0,7, 0,0,0,3, 0,0,0,9, 0,0,0,66, 1,2,3,4,5,6,7,8, 0,0,0,2] =
      .ok ⟨read32 [0,0,0,7, 0,0,0,3, 0,0,0,9, 0,0,0,66,
            1,2,3,4,5,6,7,8, 0,0,0,2] 0,
        read32 [0,0,0,7, 0,0,0,3, 0,0,0,9, 0,0,0,66,
            1,2,3,4,5,6,7,8, 0,0,0,2] 4,
        read32 [0,0,0,7, 0,0,0,3, 0,0,0,9, 0,0,0,66,
            1,2,3,4,5,6,7,8, 0,0,0,2] 8,
        op,
        read64 [0,0,0,7, 0,0,0,3, 0,0,0,9, 0,0,0,66,
            1,2,3,4,5,6,7,8, 0,0,0,2] 16,
        read32 [0,0,0,7, 0,0,0,3, 0,0,0,9, 0,0,0,66,
            1,2,3,4,5,6,7,8, 0,0,0,2] 24⟩ :=
  c10_decode_ignores_version
    [0,0,0,7, 0,0,0,3, 0,0,0,9, 0,0,0,66, 1,2,3,4,5,6,7,8, 0,0,0,2]
    (by decide) (by decide)

/-! ## Spec-side TXT rendering (refinement target for the TXT claim)

These definitions follow the specification's words, not the source: each
TXT item byte `b < 0x20` or `b > 0x7E` becomes a backslash and three
zero-padded decimal digits, `"` and `\` become backslash-escaped, and
printable ASCII passes through unchanged. -/

def decDigit (n : Nat) : Char := Char.ofNat (48 + n)

def specEscapeByte (b : Nat) : List Char :=
  ['\\', decDigit (b / 100), decDigit (b / 10 % 10), decDigit (b % 10)]

def specRenderByte (b : Nat) : List Char :=
  if b = 34 then ['\\', '"']
  else if b = 92 then ['\\', '\\']
  else if b < 32 ∨ b > 126 then specEscapeByte b
  else [Char.ofNat b]

/-- Spec-side `unpack_string`: read one length byte `L`, then `L` data
bytes, and render each data byte with `specRenderByte`. -/
def specUnpackString (msg : List Nat) (off : Nat) :
    Except String (List Char × Nat) :=
  if off + 1 > msg.length then .error "overflow unpacking txt (len byte)"
  else
    let l := msg.getD off 0
    if off + 1 + l > msg.length then
      .error "overflow unpacking txt (data)"
    else
      .ok (((msg.drop (off + 1)).take l).flatMap specRenderByte, off + 1 + l)

/-! ## Per-byte and ASCII-run lemmas for the TXT codec -/

set_option maxRecDepth 20000 in
/-- The source's table-driven `escape_byte` agrees with the spec's
zero-padded decimal escape on its entire domain. -/
theorem escape_byte_spec : ∀ b : Nat, b < 256 → b < 32 ∨ 126 < b →
    Resolve.escape_byte b = specEscapeByte b := by decide

theorem specRenderByte_quote_or_backslash (b : Nat) (h : b = 34 ∨ b = 92) :
    ['\\', Char.ofNat b] = specRenderByte b := by
  rcases h with h | h <;> subst h <;> decide

theorem specRenderByte_escaped (b : Nat) (hq : ¬(b = 34 ∨ b = 92))
    (hr : b < 32 ∨ 126 < b) : specRenderByte b = specEscapeByte b := by
  unfold specRenderByte
  rw [if_neg (fun h => hq (Or.inl h)), if_neg (fun h => hq (Or.inr h)),
    if_pos hr]

theorem specRenderByte_plain (b : Nat) (hq : ¬(b = 34 ∨ b = 92))
    (hr : ¬(b < 32 ∨ 126 < b)) : specRenderByte b = [Char.ofNat b] := by
  unfold specRenderByte
  rw [if_neg (fun h => hq (Or.inl h)), if_neg (fun h => hq (Or.inr h)),
    if_neg hr]

/-- Lossy UTF-8 decoding restricted to ASCII bytes is the byte-wise
character map. -/
theorem utf8Lossy_ascii : ∀ (l : List Nat), (∀ b ∈ l, b < 128) →
    utf8Lossy l = l.map Char.ofNat
  | [], _ => rfl
  | b :: l, h => by
    have hb : b < 128 := h b (by simp)
    unfold utf8Lossy
    rw [if_pos hb, utf8Lossy_ascii l (fun x hx => h x (by simp [hx]))]
    rfl

/-- A run of plain printable bytes renders, through the lossy conversion
the source applies to unescaped runs, exactly as the spec's byte-wise
rendering. -/
theorem render_plain_run : ∀ (l : List Nat),
    (∀ b ∈ l, 32 ≤ b ∧ b ≤ 126 ∧ b ≠ 34 ∧ b ≠ 92) →
    utf8Lossy l = l.flatMap specRenderByte
  | [], _ => rfl
  | b :: l, h => by
    obtain ⟨h1, h2, h3, h4⟩ := h b (by simp)
    have hb : b < 128 := by omega
    unfold utf8Lossy
    rw [if_pos hb, render_plain_run l (fun x hx => h x (by simp [hx]))]
    rw [List.flatMap_cons,
      specRenderByte_plain b (by rintro (h | h) <;> omega) (by omega)]
    rfl

/-! ## The TXT unpacking loop refines the spec rendering -/

theorem go_spec (slice : List Nat) (hbytes : ∀ b ∈ slice, b < 256) :
    ∀ (rest : List Nat) (i : Nat) (s : List Char) (consumed : Nat),
      rest = slice.drop i → i ≤ slice.length → consumed ≤ i →
      s = (slice.take consumed).flatMap specRenderByte →
      (∀ b ∈ (slice.drop consumed).take (i - consumed),
        32 ≤ b ∧ b ≤ 126 ∧ b ≠ 34 ∧ b ≠ 92) →
      (if (Resolve.unpackStringGo slice rest i s consumed).2 = 0 then
        utf8Lossy slice
       else (Resolve.unpackStringGo slice rest i s consumed).1 ++
        utf8Lossy (slice.drop (Resolve.unpackStringGo slice rest i s consumed).2)) =
      slice.flatMap specRenderByte := by
  intro rest
  induction rest with
  | nil =>
    intro i s consumed hrest hi hci hs hplain
    have hieq : i = slice.length := by
      have := List.drop_eq_nil_iff.mp hrest.symm
      omega
    by_cases hc : consumed = 0
    · subst hc
      simp only [Resolve.unpackStringGo, if_pos]
      have : (slice.drop 0).take (i - 0) = slice := by
        rw [List.drop_zero, hieq, Nat.sub_zero, List.take_length]
      rw [this] at hplain
      exact render_plain_run slice hplain
    · simp only [Resolve.unpackStringGo]
      rw [if_neg hc]
      have hrun : (slice.drop consumed).take (i - consumed) = slice.drop consumed := by
        apply List.take_of_length_le
        rw [List.length_drop]
        omega
      rw [hrun] at hplain
      rw [render_plain_run _ hplain, hs, ← List.flatMap_append,
        List.take_append_drop]
  | cons b rest' ih =>
    intro i s consumed hrest hi hci hs hplain
    have hilt : i < slice.length := by
      by_contra hcon
      push_neg at hcon
      rw [List.drop_eq_nil_of_le hcon] at hrest
      cases hrest
    have hgetb : slice[i]? = some b := by
      have := List.getElem?_drop slice i 0
      rw [← hrest] at this
      simpa using this.symm
    have hrest' : rest' = slice.drop (i + 1) := by
      have h1 : List.drop 1 (List.drop i slice) = List.drop (i + 1) slice :=
        List.drop_drop 1 i slice
      rw [← hrest] at h1
      simpa using h1
    have hbmem : b ∈ slice := by
      have : b ∈ slice.drop i := by rw [← hrest]; exact List.mem_cons_self b rest'
      exact List.mem_of_mem_drop this
    have hb256 : b < 256 := hbytes b hbmem
    have htake_i : slice.take i = slice.take consumed ++
        (slice.drop consumed).take (i - consumed) := by
      have h2 := List.take_add slice consumed (i - consumed)
      rw [show consumed + (i - consumed) = i from by omega] at h2
      exact h2
    have htake_i1 : slice.take (i + 1) = slice.take i ++ [b] := by
      rw [List.take_succ, hgetb]
      rfl
    unfold Resolve.unpackStringGo
    by_cases harm1 : b = 34 ∨ b = 92
    · rw [if_pos harm1]
      apply ih (i + 1) _ (i + 1) hrest' (by omega) (by omega)
      · rw [htake_i1, htake_i]
        rw [List.flatMap_append, List.flatMap_append]
        rw [hs, render_plain_run _ hplain,
          specRenderByte_quote_or_backslash b harm1]
        simp [List.flatMap_cons]
      · intro x hx
        rw [Nat.sub_self] at hx
        simp at hx
    · rw [if_neg harm1]
      by_cases harm2 : b < 32 ∨ b > 126
      · rw [if_pos harm2]
        apply ih (i + 1) _ (i + 1) hrest' (by omega) (by omega)
        · rw [htake_i1, htake_i]
          rw [List.flatMap_append, List.flatMap_append]
          rw [hs, render_plain_run _ hplain,
            escape_byte_spec b hb256 harm2,
            ← specRenderByte_escaped b harm1 harm2]
          simp [List.flatMap_cons]
        · intro x hx
          rw [Nat.sub_self] at hx
          simp at hx
      · rw [if_neg harm2]
        apply ih (i + 1) s consumed hrest' (by omega) (by omega) hs
        intro x hx
        have hstep : (slice.drop consumed).take (i + 1 - consumed) =
            (slice.drop consumed).take (i - consumed) ++ [b] := by
          have h1 : i + 1 - consumed = (i - consumed) + 1 := by omega
          rw [h1, List.take_succ]
          have h2 : (slice.drop consumed)[i - consumed]? = some b := by
            rw [List.getElem?_drop]
            have : consumed + (i - consumed) = i := by omega
            rw [this, hgetb]
          rw [h2]
          rfl
        rw [hstep] at hx
        rcases List.mem_append.mp hx with hx | hx
        · exact hplain x hx
        · simp at hx
          subst hx
          push_neg at harm1 harm2
          exact ⟨by omega, by omega, harm1.1, harm1.2⟩

theorem unpack_string_spec (msg : List Nat) (hbytes : ∀ b ∈ msg, b < 256)
    (off : Nat) :
    Resolve.unpack_string msg off = specUnpackString msg off := by
  unfold Resolve.unpack_string specUnpackString
  by_cases h1 : off + 1 > msg.length
  · rw [if_pos h1, if_pos h1]
  · rw [if_neg h1, if_neg h1]
    by_cases h2 : off + 1 + msg.getD off 0 > msg.length
    · rw [if_pos h2, if_pos h2]
    · rw [if_neg h2, if_neg h2]
      have hslice : ∀ b ∈ (msg.drop (off + 1)).take (msg.getD off 0),
          b < 256 := fun b hb =>
        hbytes b (List.mem_of_mem_drop (List.mem_of_mem_take hb))
      have hgo := go_spec ((msg.drop (off + 1)).take (msg.getD off 0)) hslice
        ((msg.drop (off + 1)).take (msg.getD off 0)) 0 [] 0 rfl
        (by omega) (by omega) rfl (by intro x hx; simp at hx)
      rcases hgo2 : Resolve.unpackStringGo
          ((msg.drop (off + 1)).take (msg.getD off 0))
          ((msg.drop (off + 1)).take (msg.getD off 0)) 0 [] 0 with ⟨s, c⟩
      simp only [hgo2] at hgo ⊢
      by_cases hc : c = 0
      · rw [if_pos hc] at hgo
        rw [if_pos hc, hgo]
      · rw [if_neg hc] at hgo
        rw [if_neg hc, hgo]

theorem unpack_txt_first_err (msg : List Nat) (off : Nat) (e : String)
    (hoff : off < msg.length) (he : Resolve.unpack_string msg off = .error e) :
    Resolve.unpack_txt msg off = .error e := by
  unfold Resolve.unpack_txt
  show Resolve.unpackTxtGo msg (msg.length + 1) off [] = .error e
  unfold Resolve.unpackTxtGo
  rw [if_pos hoff, he]
  rfl

theorem unpack_txt_later_err (msg : List Nat) (fuel off : Nat)
    (txts : List (List Char)) (e : String)
    (hne : txts ≠ []) (hoff : off < msg.length)
    (he : Resolve.unpack_string msg off = .error e) :
    Resolve.unpackTxtGo msg (fuel + 1) off txts = .ok (txts, off) := by
  unfold Resolve.unpackTxtGo
  rw [if_pos hoff, he]
  simp [hne]

set_option maxRecDepth 2000 in
/-- C9: TXT unpacking.  (1) `unpack_string` reads one length byte `L` and
`L` data bytes and renders them exactly as the spec says: quote and
backslash become backslash-escaped, bytes below 0x20 or above 0x7E become a
backslash and three zero-padded decimal digits, printable ASCII passes
through.  (2) If the first item fails to decode, `unpack_txt` returns the
error.  (3) If an item fails after at least one item was produced, the
loop stops and returns the accumulated items. -/
theorem c9_txt_unpacking :
    (∀ (msg : List Nat), (∀ b ∈ msg, b < 256) → ∀ off : Nat,
      Resolve.unpack_string msg off = specUnpackString msg off) ∧
    (∀ (msg : List Nat) (off : Nat) (e : String), off < msg.length →
      Resolve.unpack_string msg off = .error e →
      Resolve.unpack_txt msg off = .error e) ∧
    (∀ (msg : List Nat) (fuel off : Nat) (txts : List (List Char))
      (e : String), txts ≠ [] → off < msg.length →
      Resolve.unpack_string msg off = .error e →
      Resolve.unpackTxtGo msg (fuel + 1) off txts = .ok (txts, off)) :=
  ⟨unpack_string_spec, unpack_txt_first_err, unpack_txt_later_err⟩

/-- Witness for `c9_txt_unpacking` at concrete TXT buffers. -/
theorem c9_txt_unpacking_witness :
    Resolve.unpack_string [2,34,200] 0 = specUnpackString [2,34,200] 0 ∧
    Resolve.unpack_txt [1] 0 = .error "overflow unpacking txt (data)" ∧
    Resolve.unpackTxtGo [0,1] 1 1 [[]] = .ok ([[]], 1) :=
  ⟨c9_txt_unpacking.1 [2,34,200] (by decide) 0,
   c9_txt_unpacking.2.1 [1] 0 "overflow unpacking txt (data)" (by decide)
     (by rfl),
   c9_txt_unpacking.2.2 [0,1] 0 1 [[]] "overflow unpacking txt (data)"
     (by decide) (by decide) (by rfl)⟩

end MdnsIpc
